import Mathlib

/-!
Shallow embedding of the docker orchestration core of the cywp repository
(src/docker/docker.js).  JavaScript truthiness and the few dynamic value
shapes the code branches on are modelled explicitly; thrown errors and promise
rejections become values of an Except type.
-/

namespace Cywp

/-- JavaScript string-or-number value, as stored in option-object fields. -/
inductive JStr
  | str (s : String)
  | int (n : Int)
deriving DecidableEq, Repr

/-- JavaScript truthiness of a string-or-number value: the empty string and 0
are falsy, everything else is truthy. -/
def JStr.truthy : JStr → Bool
  | .str s => s != ""
  | .int n => n != 0

/-- Text the value contributes when interpolated into a template string. -/
def JStr.render : JStr → String
  | .str s => s
  | .int n => toString n

/-- Truthiness of a possibly-absent string-or-number field. -/
def fieldTruthy : Option JStr → Bool
  | none => false
  | some v => v.truthy

/-- Interpolation of a possibly-absent field; JavaScript renders a missing
property as the text undefined. -/
def renderField : Option JStr → String
  | none => "undefined"
  | some v => v.render

/-- Truthiness of a possibly-absent string field. -/
def optTruthy : Option String → Bool
  | none => false
  | some s => s != ""

/-- Value stored in health.retries: either a whole number, or any other value
together with its truthiness (3.5 and "abc" are truthy non-integers, NaN is a
falsy one). -/
inductive RetriesVal
  | int (n : Int)
  | other (truthy : Bool)
deriving DecidableEq, Repr

/-- JavaScript truthiness of the retries value: the number 0 is falsy. -/
def RetriesVal.truthy : RetriesVal → Bool
  | .int n => n != 0
  | .other t => t

/-- The Number.isInteger test of the source. -/
def RetriesVal.isInteger : RetriesVal → Bool
  | .int _ => true
  | .other _ => false

/-- Text of the retries value when pushed onto the argument list; only whole
numbers are ever pushed by the source. -/
def RetriesVal.render : RetriesVal → String
  | .int n => toString n
  | .other _ => ""

/-- A field the source expects to hold an array: either an actual array, or
some other value together with its truthiness (Array.isArray rejects it). -/
inductive JArr (α : Type)
  | arr (xs : List α)
  | notArr (truthy : Bool)
deriving DecidableEq, Repr

/-- Truthiness of a possibly-absent array-expected field; arrays, the empty
array included, are always truthy in JavaScript. -/
def jarrTruthy {α : Type} : Option (JArr α) → Bool
  | none => false
  | some (.arr _) => true
  | some (.notArr t) => t

/-- One entry of the volumes option. -/
structure Mount where
  host : Option JStr := none
  docker : Option JStr := none
deriving DecidableEq, Repr

/-- One entry of the environmentVariables option. -/
structure EnvVar where
  name : Option JStr := none
  value : Option JStr := none
deriving DecidableEq, Repr

/-- One entry of the exposePorts option. -/
structure PortMap where
  host : Option JStr := none
  docker : Option JStr := none
deriving DecidableEq, Repr

/-- The health option block of ContainerOptions. -/
structure HealthOptions where
  command : Option String := none
  interval : Option String := none
  retries : Option RetriesVal := none
  startPeriod : Option String := none
  timeout : Option String := none
deriving DecidableEq, Repr

/-- The ContainerOptions object of the source; id and status are attached to
this same object by the orchestration methods. -/
structure ContainerOptions where
  image : Option String := none
  name : Option String := none
  network : Option String := none
  health : Option HealthOptions := none
  rm : Bool := false
  volumes : Option (JArr Mount) := none
  environmentVariables : Option (JArr EnvVar) := none
  exposePorts : Option (JArr PortMap) := none
  commands : Option (JArr String) := none
  id : Option String := none
  status : Option String := none
deriving DecidableEq, Repr

/-- Error channel: JavaScript Error and TypeError throws from validation, plus
the rejection of a failed process (modelled from the spec, section 7), merged
into one error type. -/
inductive DockerError
  | error (msg : String)
  | typeError (msg : String)
  | execError (msg : String)
deriving DecidableEq, Repr

/-- Message of the missing-image error (docker.js line 114). -/
def imageMsg : String :=
  "options.image must be provided!\nexample:\nnew Container(\x7bimage = \x27wordpress:latest\x27\x7d)"

/-- Message of the missing-health-command error (docker.js line 127). -/
def healthCommandMsg : String :=
  "options.health.command must not be defined to use options.health"

/-- Message of the non-integer-retries error (docker.js line 138). -/
def retriesMsg : String :=
  "options.health.retries must be an integer."

/-- Usage example appended to the volumes errors (docker.js line 158). -/
def volumesExample : String :=
  "example:\nnew Container(\x7b\n\tvolumes: [\n\t\t\x7b host: \x27./example.js\x27, docker: \x27/usr/bin/example.js\x27 \x7d\n\t]\n\x7d)"

/-- Message of the volumes-not-an-array error (docker.js line 161). -/
def volumesArrayMsg : String :=
  "options.volumes must be an array\n" ++ volumesExample

/-- Message of the invalid-volumes-entry error (docker.js line 166). -/
def volumesItemMsg : String :=
  "options.volumes must contain array of object with docker and host as properties\n" ++ volumesExample

/-- Usage example appended to the environmentVariables errors (docker.js line 174). -/
def envExample : String :=
  "example:\nnew Container(\x7b\n\tenvironmentVariables: [\n\t\t\x7b name: \x27DOCKER_ENV\x27, value: \x27foo\x27 \x7d\n\t]\n\x7d)"

/-- Message of the environmentVariables-not-an-array error (docker.js line 177). -/
def envArrayMsg : String :=
  "options.environmentVariables must be an array\n" ++ envExample

/-- Message of the invalid-environmentVariables-entry error (docker.js line 182). -/
def envItemMsg : String :=
  "options.environmentVariables must contain array of object with name and value as properties\n" ++ envExample

/-- Usage example appended to the exposePorts errors (docker.js line 190). -/
def portsExample : String :=
  "example:\nnew Container(\x7b\n\texposePorts: [\n\t\t\x7b host: \x278080\x27, docker: \x2780\x27 \x7d\n\t]\n\x7d)"

/-- Message of the exposePorts-not-an-array error (docker.js line 193). -/
def portsArrayMsg : String :=
  "options.exposePorts must be an array\n" ++ portsExample

/-- Message of the invalid-exposePorts-entry error (docker.js line 198); the
source reuses the volumes wording here verbatim. -/
def portsItemMsg : String :=
  "options.volumes must contain array of object with docker and host as properties\n" ++ portsExample

/-- Message of the commands-not-an-array error (docker.js line 209). -/
def commandsMsg : String :=
  "options.commands must be array of string."

/-- Message of the RunInContainer missing-commands error (docker.js line 40). -/
def runInCommandsMsg : String :=
  "options.commands must be provided to use RunInContainer."

/-- Message of the RunInContainer unset-rm error (docker.js line 44). -/
def runInRmMsg : String :=
  "options.rm must be true to use RunInContainer. (we don\x27t want to leave garbage aroud)"

/-- Message of the missing-network-name error (docker.js line 228). -/
def networkNameMsg : String :=
  "options.name must be provided!\nexample:\nnew Network(\x7b name: \x27cywp-network\x27 \x7d)"

/-- Flag-value token pair for a possibly-absent string option, emitted only
when the option is truthy. -/
def optFlag (flag : String) (v : Option String) : List String :=
  if optTruthy v then [flag, v.getD ""] else []

/-- Remove flag (docker.js line 153). -/
def rmArgs (rm : Bool) : List String :=
  if rm then ["--rm"] else []

/-- Base tokens of the container invocation, built the way the source does:
push the detach token and pop it again when running attached
(docker.js lines 107-111). -/
def baseArgs (run detach : Bool) : List String :=
  let args := if run then ["container", "run", "--detach"] else ["container", "create"]
  if run && !detach then args.dropLast else args

/-- Retries tokens of the health block (docker.js lines 136-142): skipped when
falsy, a TypeError when truthy but not a whole number. -/
def retriesArgs : Option RetriesVal → Except DockerError (List String)
  | none => .ok []
  | some r =>
    if r.truthy then
      if r.isInteger then .ok ["--health-retries", r.render]
      else .error (.typeError retriesMsg)
    else .ok []

/-- Health block of processCreateContainerOptions (docker.js lines 125-151).
The source pushes the command, interval, retries, start-period and timeout
pairs in that order, throwing on a missing command or an invalid retries. -/
def healthSection : Option HealthOptions → Except DockerError (List String)
  | none => .ok []
  | some h =>
    if optTruthy h.command = false then
      .error (.typeError healthCommandMsg)
    else
      (retriesArgs h.retries).map fun retriesA =>
        ["--health-cmd", h.command.getD ""] ++ optFlag "--health-interval" h.interval ++
          retriesA ++ optFlag "--health-start-period" h.startPeriod ++
          optFlag "--health-timeout" h.timeout

/-- Per-entry loop of the volumes block (docker.js lines 164-170): the source
checks item.docker then item.host for truthiness and pushes a -v pair. -/
def mountArgsList : List Mount → Except DockerError (List String)
  | [] => .ok []
  | item :: rest =>
    if fieldTruthy item.docker = false ∨ fieldTruthy item.host = false then
      .error (.error volumesItemMsg)
    else
      (mountArgsList rest).map fun tail =>
        "-v" :: (renderField item.host ++ ":" ++ renderField item.docker) :: tail

/-- Volumes block of processCreateContainerOptions (docker.js lines 157-171). -/
def volumesSection : Option (JArr Mount) → Except DockerError (List String)
  | none => .ok []
  | some (.notArr t) => if t then .error (.error volumesArrayMsg) else .ok []
  | some (.arr xs) => mountArgsList xs

/-- Per-entry loop of the environmentVariables block (docker.js lines
180-186): checks item.name then item.value and pushes an -e pair. -/
def envArgsList : List EnvVar → Except DockerError (List String)
  | [] => .ok []
  | item :: rest =>
    if fieldTruthy item.name = false ∨ fieldTruthy item.value = false then
      .error (.error envItemMsg)
    else
      (envArgsList rest).map fun tail =>
        "-e" :: (renderField item.name ++ "=" ++ renderField item.value) :: tail

/-- EnvironmentVariables block of processCreateContainerOptions (docker.js
lines 173-187). -/
def envSection : Option (JArr EnvVar) → Except DockerError (List String)
  | none => .ok []
  | some (.notArr t) => if t then .error (.error envArrayMsg) else .ok []
  | some (.arr xs) => envArgsList xs

/-- Per-entry loop of the exposePorts block (docker.js lines 196-202): checks
item.host then item.docker and pushes a -p pair. -/
def portArgsList : List PortMap → Except DockerError (List String)
  | [] => .ok []
  | item :: rest =>
    if fieldTruthy item.host = false ∨ fieldTruthy item.docker = false then
      .error (.error portsItemMsg)
    else
      (portArgsList rest).map fun tail =>
        "-p" :: (renderField item.host ++ ":" ++ renderField item.docker) :: tail

/-- ExposePorts block of processCreateContainerOptions (docker.js lines
189-203). -/
def portsSection : Option (JArr PortMap) → Except DockerError (List String)
  | none => .ok []
  | some (.notArr t) => if t then .error (.error portsArrayMsg) else .ok []
  | some (.arr xs) => portArgsList xs

/-- Commands block of processCreateContainerOptions (docker.js lines 207-213),
run after the image token has been pushed: a truthy non-array commands value
is a TypeError, an array is appended as-is. -/
def commandsSection : Option (JArr String) → Except DockerError (List String)
  | none => .ok []
  | some (.notArr t) => if t then .error (.typeError commandsMsg) else .ok []
  | some (.arr xs) => .ok xs

/-- processCreateContainerOptions (docker.js lines 106-216).  The source
mutates one args array and throws in textual order: image first, then the
health block, volumes, environmentVariables, exposePorts, and, after pushing
the image token, the commands check; the Except chain below sequences the
blocks in exactly that order, and the ok value is the final args array. -/
def processCreateContainerOptions (options : ContainerOptions) (run detach : Bool) :
    Except DockerError (List String) :=
  if optTruthy options.image = false then .error (.error imageMsg)
  else
    (healthSection options.health).bind fun healthA =>
    (volumesSection options.volumes).bind fun volA =>
    (envSection options.environmentVariables).bind fun envA =>
    (portsSection options.exposePorts).bind fun portA =>
    (commandsSection options.commands).bind fun cmdA =>
    .ok (baseArgs run detach ++ optFlag "--name" options.name ++
      optFlag "--net" options.network ++ healthA ++ rmArgs options.rm ++
      volA ++ envA ++ portA ++ [options.image.getD ""] ++ cmdA)

/-- The network options object; id and status are attached to this same
object by CreateNetwork. -/
structure NetworkOptions where
  name : Option String := none
  id : Option String := none
  status : Option String := none
deriving DecidableEq, Repr

/-- ProcessCreateNetworkOption (docker.js lines 224-234). -/
def ProcessCreateNetworkOption (options : NetworkOptions) : Except DockerError (List String) :=
  if optTruthy options.name = false then .error (.error networkNameMsg)
  else .ok ["network", "create", options.name.getD ""]

/-- Argument of CreateNetwork: the source branches on typeof, so the input is
either a bare string or a structured options object. -/
inductive NetworkInput
  | str (s : String)
  | opts (o : NetworkOptions)
deriving DecidableEq, Repr

/-- Normalization step of CreateNetwork (docker.js lines 81-83): a bare string
becomes an options object holding only the name. -/
def normalizeNetworkInput : NetworkInput → NetworkOptions
  | .str s => { name := some s }
  | .opts o => o

/-- JavaScript stdout.replace applied with the one-character pattern of a
newline: removes the first newline occurrence only. -/
def removeFirstNewlineAux : List Char → List Char
  | [] => []
  | c :: cs => if c = '\n' then cs else c :: removeFirstNewlineAux cs

/-- The stdout.replace call of the creating operations (docker.js lines 23,
67, 90): strips the first newline of the accumulated stdout text. -/
def removeFirstNewline (s : String) : String :=
  String.mk (removeFirstNewlineAux s.data)

/-- Outcome of one spawned process once it has terminated: exit code plus the
accumulated stdout and stderr text. -/
structure ProcessResult where
  exitCode : Int
  stdout : String
  stderr : String
deriving DecidableEq, Repr

/-- Modelled from the spec: ReturnPromise lives in src/docker/util.js, which
is not among the sources; per spec section 4.2 the Process Runner resolves
with the callback applied to the accumulated stdout and stderr when the exit
code is zero, and otherwise rejects with an execution error whose message is
the accumulated stderr, or a generic message when stderr is empty. -/
def ReturnPromise {α : Type} (proc : ProcessResult) (callback : String → String → α) :
    Except DockerError α :=
  if proc.exitCode = 0 then .ok (callback proc.stdout proc.stderr)
  else .error (.execError (if proc.stderr = "" then
    "docker exited with code " ++ toString proc.exitCode else proc.stderr))

/-- Modelled from the spec: the Container entity class lives in
src/docker/container.js, which is not among the sources; per spec section 4.3
it is a typed value holding the configuration plus the runtime id and status,
built from the options object after the orchestrator attached id and status. -/
structure Container where
  id : Option String
  status : Option String
  config : ContainerOptions
deriving DecidableEq, Repr

/-- Modelled from the spec: the Volume entity class lives in
src/docker/volume.js, which is not among the sources; per spec section 4.3 it
holds the name and status assigned by CreateVolume. -/
structure Volume where
  name : Option String
  status : Option String
deriving DecidableEq, Repr

/-- Modelled from the spec: the Network entity class lives in
src/docker/network.js, which is not among the sources; per spec section 4.3
it holds the name plus the runtime id and status. -/
structure Network where
  name : Option String
  id : Option String
  status : Option String
deriving DecidableEq, Repr

/-- Output object of RunInContainer (docker.js line 52). -/
structure RunInContainerOutput where
  stdout : String
  stderr : String
deriving DecidableEq, Repr

/-- Docker.CreateContainer (docker.js lines 17-30).  The spawned process is
modelled by its terminal outcome, passed in as proc.  The source mutates the
caller-supplied options object, assigning id from stdout with its first
newline removed, then status (started when run, created otherwise, overridden
to removed when options.rm), and wraps that same object in a Container; the
model returns the final state of the options object next to the entity. -/
def CreateContainer (options : ContainerOptions) (run detach : Bool)
    (proc : ProcessResult) : Except DockerError (ContainerOptions × Container) :=
  (processCreateContainerOptions options run detach).bind fun _args =>
    ReturnPromise proc fun stdout _stderr =>
      let o1 := { options with id := some (removeFirstNewline stdout) }
      let o2 := { o1 with status := some (if run then "started" else "created") }
      let o3 := if options.rm then { o2 with status := some "removed" } else o2
      (o3, Container.mk o3.id o3.status o3)

/-- Docker.RunInContainer (docker.js lines 38-54): synchronous TypeErrors for
falsy commands and falsy rm, then argument building with run true and detach
false, then the process outcome mapped to a stdout-stderr pair. -/
def RunInContainer (options : ContainerOptions) (proc : ProcessResult) :
    Except DockerError RunInContainerOutput :=
  if jarrTruthy options.commands = false then .error (.typeError runInCommandsMsg)
  else if options.rm = false then .error (.typeError runInRmMsg)
  else
    (processCreateContainerOptions options true false).bind fun _args =>
      ReturnPromise proc fun out err => ⟨out, err⟩

/-- Docker.CreateVolume (docker.js lines 62-72): the resulting Volume takes
its name from the process stdout with its first newline removed, never from
the name argument, and its status is alive. -/
def CreateVolume (name : String) (proc : ProcessResult) : Except DockerError Volume :=
  let _args := ["volume", "create", name]
  ReturnPromise proc fun stdout _stderr =>
    Volume.mk (some (removeFirstNewline stdout)) (some "alive")

/-- Docker.CreateNetwork (docker.js lines 80-95): normalizes a bare string,
builds the network args, and on success attaches id (stdout with its first
newline removed) and status alive to the options object, wrapping that same
object in a Network; the model returns the final state of the options object
next to the entity. -/
def CreateNetwork (input : NetworkInput) (proc : ProcessResult) :
    Except DockerError (NetworkOptions × Network) :=
  (ProcessCreateNetworkOption (normalizeNetworkInput input)).bind fun _args =>
    ReturnPromise proc fun stdout _stderr =>
      let o1 := { normalizeNetworkInput input with
        id := some (removeFirstNewline stdout), status := some "alive" }
      (o1, Network.mk o1.name o1.id o1.status)

/-- Base tokens as the spec words them (section 4.1): container create when
not running, container run with the detach token when running detached,
container run alone when running attached. -/
def specBaseTokens (run detach : Bool) : List String :=
  if run then
    (if detach then ["container", "run", "--detach"] else ["container", "run"])
  else ["container", "create"]

/-- Retries tokens as the spec words them: the pair is emitted only when the
field is provided (truthy, per the truthiness convention of the code). -/
def specRetriesTokens : Option RetriesVal → List String
  | none => []
  | some r => if r.truthy then ["--health-retries", r.render] else []

/-- Health-check tokens as the spec words them (section 4.1): command, then
interval, retries, start-period, timeout, each only if provided. -/
def specHealthTokens : Option HealthOptions → List String
  | none => []
  | some h =>
    optFlag "--health-cmd" h.command ++ optFlag "--health-interval" h.interval ++
      specRetriesTokens h.retries ++ optFlag "--health-start-period" h.startPeriod ++
      optFlag "--health-timeout" h.timeout

/-- One volume-mount flag pair per volume entry, in input order. -/
def specMountTokens : List Mount → List String
  | [] => []
  | m :: rest => "-v" :: (renderField m.host ++ ":" ++ renderField m.docker) :: specMountTokens rest

/-- Volume tokens as the spec words them: one flag pair per entry of a
provided list, nothing otherwise. -/
def specVolTokens : Option (JArr Mount) → List String
  | some (.arr xs) => specMountTokens xs
  | _ => []

/-- One environment flag pair per variable, in input order. -/
def specEnvVarTokens : List EnvVar → List String
  | [] => []
  | e :: rest => "-e" :: (renderField e.name ++ "=" ++ renderField e.value) :: specEnvVarTokens rest

/-- Environment tokens as the spec words them. -/
def specEnvTokens : Option (JArr EnvVar) → List String
  | some (.arr xs) => specEnvVarTokens xs
  | _ => []

/-- One port-mapping flag pair per port entry, in input order. -/
def specPortMapTokens : List PortMap → List String
  | [] => []
  | p :: rest => "-p" :: (renderField p.host ++ ":" ++ renderField p.docker) :: specPortMapTokens rest

/-- Port tokens as the spec words them. -/
def specPortTokens : Option (JArr PortMap) → List String
  | some (.arr xs) => specPortMapTokens xs
  | _ => []

/-- Command tokens as the spec words them: each command token in input order,
appended last. -/
def specCmdTokens : Option (JArr String) → List String
  | some (.arr xs) => xs
  | _ => []

/-- Every token the builder emits after the base tokens, as the spec words
the emission order (section 4.1): name flag pair, network flag pair,
health-check pairs, remove flag, volume pairs, environment pairs, port pairs,
the image token, then the command tokens. -/
def optionTokens (o : ContainerOptions) : List String :=
  optFlag "--name" o.name ++ optFlag "--net" o.network ++ specHealthTokens o.health ++
    rmArgs o.rm ++ specVolTokens o.volumes ++ specEnvTokens o.environmentVariables ++
    specPortTokens o.exposePorts ++ [o.image.getD ""] ++ specCmdTokens o.commands

/-- The full token sequence the spec describes for container argument
construction: base tokens followed by the option tokens. -/
def containerSpecTokens (o : ContainerOptions) (run detach : Bool) : List String :=
  specBaseTokens run detach ++ optionTokens o

/-- Trimming as the spec and the claims word it: surrounding whitespace,
the trailing newline included, stripped from both ends. -/
def specTrim (s : String) : String :=
  String.mk (((s.data.dropWhile Char.isWhitespace).reverse.dropWhile Char.isWhitespace).reverse)

/-- Checks whether the pattern starts the given character list. -/
def charListStartsWith : List Char → List Char → Bool
  | [], _ => true
  | _ :: _, [] => false
  | p :: ps, c :: cs => p == c && charListStartsWith ps cs

/-- Checks whether the pattern occurs anywhere in the given character list. -/
def charListContains (pat : List Char) : List Char → Bool
  | [] => charListStartsWith pat []
  | c :: cs => charListStartsWith pat (c :: cs) || charListContains pat cs

/-- A message carries a corrective usage example exactly when it contains the
example marker every such message of the source starts its example with. -/
def hasUsageExample (msg : String) : Bool :=
  charListContains "example:".data msg.data

/-! Helper lemmas relating each builder block to its spec-worded token list. -/

theorem baseArgs_eq_specBase (run detach : Bool) :
    baseArgs run detach = specBaseTokens run detach := by
  cases run <;> cases detach <;> rfl

theorem retriesArgs_ok {r : Option RetriesVal} {ts : List String}
    (h : retriesArgs r = .ok ts) : ts = specRetriesTokens r := by
  cases r with
  | none =>
    have h' := Except.ok.inj h
    simp [specRetriesTokens, ← h']
  | some v =>
    cases ht : v.truthy with
    | false =>
      simp only [retriesArgs, ht, Bool.false_eq_true, if_false] at h
      have h' := Except.ok.inj h
      simp [specRetriesTokens, ht, ← h']
    | true =>
      cases hi : v.isInteger with
      | false => simp [retriesArgs, ht, hi] at h
      | true =>
        simp only [retriesArgs, ht, hi, if_true] at h
        have h' := Except.ok.inj h
        simp [specRetriesTokens, ht, ← h']

theorem healthSection_ok {hb : Option HealthOptions} {ts : List String}
    (h : healthSection hb = .ok ts) : ts = specHealthTokens hb := by
  cases hb with
  | none =>
    have h' := Except.ok.inj h
    simp [specHealthTokens, ← h']
  | some hh =>
    by_cases hc : optTruthy hh.command = false
    · simp only [healthSection, if_pos hc] at h
      exact Except.noConfusion h
    · simp only [healthSection, if_neg hc] at h
      cases hr : retriesArgs hh.retries with
      | error e => rw [hr] at h; exact Except.noConfusion h
      | ok rs =>
        rw [hr] at h
        have h' := Except.ok.inj h
        have hc' : optTruthy hh.command = true := by
          revert hc; cases optTruthy hh.command <;> simp
        simp [specHealthTokens, optFlag, hc', retriesArgs_ok hr, ← h']

theorem mountArgsList_ok : ∀ {xs : List Mount} {ts : List String},
    mountArgsList xs = .ok ts → ts = specMountTokens xs := by
  intro xs
  induction xs with
  | nil =>
    intro ts h
    have h' := Except.ok.inj h
    simp [specMountTokens, ← h']
  | cons m rest ih =>
    intro ts h
    simp only [mountArgsList] at h
    by_cases hc : fieldTruthy m.docker = false ∨ fieldTruthy m.host = false
    · rw [if_pos hc] at h; exact Except.noConfusion h
    · rw [if_neg hc] at h
      cases hr : mountArgsList rest with
      | error e => rw [hr] at h; exact Except.noConfusion h
      | ok tail =>
        rw [hr] at h
        have h' := Except.ok.inj h
        simp [specMountTokens, ih hr, ← h']

theorem volumesSection_ok {v : Option (JArr Mount)} {ts : List String}
    (h : volumesSection v = .ok ts) : ts = specVolTokens v := by
  cases v with
  | none =>
    have h' := Except.ok.inj h
    simp [specVolTokens, ← h']
  | some a =>
    cases a with
    | arr xs => simpa [specVolTokens] using mountArgsList_ok h
    | notArr t =>
      cases t with
      | true => exact Except.noConfusion h
      | false =>
        have h' := Except.ok.inj h
        simp [specVolTokens, ← h']

theorem envArgsList_ok : ∀ {xs : List EnvVar} {ts : List String},
    envArgsList xs = .ok ts → ts = specEnvVarTokens xs := by
  intro xs
  induction xs with
  | nil =>
    intro ts h
    have h' := Except.ok.inj h
    simp [specEnvVarTokens, ← h']
  | cons m rest ih =>
    intro ts h
    simp only [envArgsList] at h
    by_cases hc : fieldTruthy m.name = false ∨ fieldTruthy m.value = false
    · rw [if_pos hc] at h; exact Except.noConfusion h
    · rw [if_neg hc] at h
      cases hr : envArgsList rest with
      | error e => rw [hr] at h; exact Except.noConfusion h
      | ok tail =>
        rw [hr] at h
        have h' := Except.ok.inj h
        simp [specEnvVarTokens, ih hr, ← h']

theorem envSection_ok {v : Option (JArr EnvVar)} {ts : List String}
    (h : envSection v = .ok ts) : ts = specEnvTokens v := by
  cases v with
  | none =>
    have h' := Except.ok.inj h
    simp [specEnvTokens, ← h']
  | some a =>
    cases a with
    | arr xs => simpa [specEnvTokens] using envArgsList_ok h
    | notArr t =>
      cases t with
      | true => exact Except.noConfusion h
      | false =>
        have h' := Except.ok.inj h
        simp [specEnvTokens, ← h']

theorem portArgsList_ok : ∀ {xs : List PortMap} {ts : List String},
    portArgsList xs = .ok ts → ts = specPortMapTokens xs := by
  intro xs
  induction xs with
  | nil =>
    intro ts h
    have h' := Except.ok.inj h
    simp [specPortMapTokens, ← h']
  | cons m rest ih =>
    intro ts h
    simp only [portArgsList] at h
    by_cases hc : fieldTruthy m.host = false ∨ fieldTruthy m.docker = false
    · rw [if_pos hc] at h; exact Except.noConfusion h
    · rw [if_neg hc] at h
      cases hr : portArgsList rest with
      | error e => rw [hr] at h; exact Except.noConfusion h
      | ok tail =>
        rw [hr] at h
        have h' := Except.ok.inj h
        simp [specPortMapTokens, ih hr, ← h']

theorem portsSection_ok {v : Option (JArr PortMap)} {ts : List String}
    (h : portsSection v = .ok ts) : ts = specPortTokens v := by
  cases v with
  | none =>
    have h' := Except.ok.inj h
    simp [specPortTokens, ← h']
  | some a =>
    cases a with
    | arr xs => simpa [specPortTokens] using portArgsList_ok h
    | notArr t =>
      cases t with
      | true => exact Except.noConfusion h
      | false =>
        have h' := Except.ok.inj h
        simp [specPortTokens, ← h']

theorem commandsSection_ok {v : Option (JArr String)} {ts : List String}
    (h : commandsSection v = .ok ts) : ts = specCmdTokens v := by
  cases v with
  | none =>
    have h' := Except.ok.inj h
    simp [specCmdTokens, ← h']
  | some a =>
    cases a with
    | arr xs =>
      have h' := Except.ok.inj h
      simp [specCmdTokens, ← h']
    | notArr t =>
      cases t with
      | true => exact Except.noConfusion h
      | false =>
        have h' := Except.ok.inj h
        simp [specCmdTokens, ← h']

/-- Unfolded form of the builder, used to rewrite calls on updated records. -/
theorem builder_eq (o : ContainerOptions) (run detach : Bool) :
    processCreateContainerOptions o run detach =
      (if optTruthy o.image = false then .error (.error imageMsg)
      else
        (healthSection o.health).bind fun healthA =>
        (volumesSection o.volumes).bind fun volA =>
        (envSection o.environmentVariables).bind fun envA =>
        (portsSection o.exposePorts).bind fun portA =>
        (commandsSection o.commands).bind fun cmdA =>
        .ok (baseArgs run detach ++ optFlag "--name" o.name ++
          optFlag "--net" o.network ++ healthA ++ rmArgs o.rm ++
          volA ++ envA ++ portA ++ [o.image.getD ""] ++ cmdA)) := rfl

/-- Whenever the builder returns a token sequence at all, that sequence is
exactly the spec-worded one. -/
theorem builder_ok_eq {o : ContainerOptions} {run detach : Bool} {args : List String}
    (h : processCreateContainerOptions o run detach = .ok args) :
    args = containerSpecTokens o run detach := by
  rw [builder_eq] at h
  by_cases himg : optTruthy o.image = false
  · rw [if_pos himg] at h; exact Except.noConfusion h
  · rw [if_neg himg] at h
    cases hh : healthSection o.health with
    | error e => rw [hh] at h; exact Except.noConfusion h
    | ok hA =>
    rw [hh] at h
    simp only [Except.bind] at h
    cases hv : volumesSection o.volumes with
    | error e => rw [hv] at h; exact Except.noConfusion h
    | ok vA =>
    rw [hv] at h
    simp only [Except.bind] at h
    cases he : envSection o.environmentVariables with
    | error e => rw [he] at h; exact Except.noConfusion h
    | ok eA =>
    rw [he] at h
    simp only [Except.bind] at h
    cases hp : portsSection o.exposePorts with
    | error e => rw [hp] at h; exact Except.noConfusion h
    | ok pA =>
    rw [hp] at h
    simp only [Except.bind] at h
    cases hcm : commandsSection o.commands with
    | error e => rw [hcm] at h; exact Except.noConfusion h
    | ok cA =>
    rw [hcm] at h
    simp only [Except.bind] at h
    have h' := Except.ok.inj h
    rw [← h']
    simp [containerSpecTokens, optionTokens, baseArgs_eq_specBase,
      healthSection_ok hh, volumesSection_ok hv, envSection_ok he,
      portsSection_ok hp, commandsSection_ok hcm]

/-- Removing the first newline of a newline-free line followed by one newline
gives back the line (character-list version). -/
theorem removeFirstNewlineAux_append {l : List Char} (hl : '\n' ∉ l) :
    removeFirstNewlineAux (l ++ ['\n']) = l := by
  induction l with
  | nil => rfl
  | cons c cs ih =>
    simp only [List.cons_append, removeFirstNewlineAux]
    have hc : ¬c = '\n' := by
      intro e; exact hl (e ▸ List.mem_cons_self c cs)
    rw [if_neg hc]
    show c :: removeFirstNewlineAux (cs ++ ['\n']) = c :: cs
    rw [ih (fun hm => hl (List.mem_cons_of_mem _ hm))]

/-- Removing the first newline of a newline-free line followed by one newline
gives back the line. -/
theorem removeFirstNewline_eq {line : String} (hl : '\n' ∉ line.data) :
    removeFirstNewline (line ++ "\n") = line := by
  unfold removeFirstNewline
  have hd : (line ++ "\n").data = line.data ++ ['\n'] := by
    simp [String.data_append]
  rw [hd, removeFirstNewlineAux_append hl]

/-- Elimination form of a successful CreateContainer call: the final options
object and the entity are determined by the input options, the run flag and
the process stdout. -/
theorem CreateContainer_ok {o : ContainerOptions} {run detach : Bool}
    {p : ProcessResult} {ofinal : ContainerOptions} {c : Container}
    (h : CreateContainer o run detach p = .ok (ofinal, c)) :
    ofinal = { o with
      id := some (removeFirstNewline p.stdout),
      status := some (if o.rm then "removed" else if run then "started" else "created") } ∧
    c = Container.mk ofinal.id ofinal.status ofinal := by
  unfold CreateContainer at h
  cases hb : processCreateContainerOptions o run detach with
  | error e => rw [hb] at h; exact Except.noConfusion h
  | ok args =>
    rw [hb] at h
    simp only [Except.bind] at h
    unfold ReturnPromise at h
    by_cases hz : p.exitCode = 0
    · rw [if_pos hz] at h
      have h' := Except.ok.inj h
      obtain ⟨h1, h2⟩ := Prod.ext_iff.mp h'
      dsimp only at h1 h2
      constructor
      · rw [← h1]; cases hrm : o.rm <;> simp [hrm]
      · rw [← h2, ← h1]
    · rw [if_neg hz] at h; exact Except.noConfusion h

/-- Elimination form of a successful CreateVolume call. -/
theorem CreateVolume_ok {name : String} {p : ProcessResult} {v : Volume}
    (h : CreateVolume name p = .ok v) :
    v = Volume.mk (some (removeFirstNewline p.stdout)) (some "alive") := by
  unfold CreateVolume ReturnPromise at h
  by_cases hz : p.exitCode = 0
  · rw [if_pos hz] at h
    exact (Except.ok.inj h).symm
  · rw [if_neg hz] at h; exact Except.noConfusion h

/-- Elimination form of a successful CreateNetwork call. -/
theorem CreateNetwork_ok {inp : NetworkInput} {p : ProcessResult}
    {nfinal : NetworkOptions} {n : Network}
    (h : CreateNetwork inp p = .ok (nfinal, n)) :
    nfinal = { normalizeNetworkInput inp with
      id := some (removeFirstNewline p.stdout),
      status := some "alive" } ∧
    n = Network.mk nfinal.name nfinal.id nfinal.status := by
  unfold CreateNetwork at h
  cases hb : ProcessCreateNetworkOption (normalizeNetworkInput inp) with
  | error e => rw [hb] at h; exact Except.noConfusion h
  | ok args =>
    rw [hb] at h
    simp only [Except.bind] at h
    unfold ReturnPromise at h
    by_cases hz : p.exitCode = 0
    · rw [if_pos hz] at h
      have h' := Except.ok.inj h
      obtain ⟨h1, h2⟩ := Prod.ext_iff.mp h'
      dsimp only at h1 h2
      refine ⟨h1.symm, ?_⟩
      rw [← h2, ← h1]
    · rw [if_neg hz] at h; exact Except.noConfusion h

/-- A successful builder run certifies that the image is truthy and that
every validating block before the commands check returned a token list. -/
theorem builder_ok_sections {o : ContainerOptions} {run detach : Bool} {args : List String}
    (h : processCreateContainerOptions o run detach = .ok args) :
    ¬optTruthy o.image = false ∧
    (∃ x, healthSection o.health = .ok x) ∧
    (∃ x, volumesSection o.volumes = .ok x) ∧
    (∃ x, envSection o.environmentVariables = .ok x) ∧
    (∃ x, portsSection o.exposePorts = .ok x) := by
  rw [builder_eq] at h
  by_cases himg : optTruthy o.image = false
  · rw [if_pos himg] at h; exact Except.noConfusion h
  · rw [if_neg himg] at h
    cases hh : healthSection o.health with
    | error e => rw [hh] at h; exact Except.noConfusion h
    | ok hA =>
    rw [hh] at h
    simp only [Except.bind] at h
    cases hv : volumesSection o.volumes with
    | error e => rw [hv] at h; exact Except.noConfusion h
    | ok vA =>
    rw [hv] at h
    simp only [Except.bind] at h
    cases he : envSection o.environmentVariables with
    | error e => rw [he] at h; exact Except.noConfusion h
    | ok eA =>
    rw [he] at h
    simp only [Except.bind] at h
    cases hp : portsSection o.exposePorts with
    | error e => rw [hp] at h; exact Except.noConfusion h
    | ok pA =>
    exact ⟨himg, ⟨hA, rfl⟩, ⟨vA, rfl⟩, ⟨eA, rfl⟩, ⟨pA, rfl⟩⟩

/-- With a truthy non-array commands value, the builder fails with exactly the
commands TypeError whenever every other block validates (witnessed by the
builder succeeding on the same options with commands removed). -/
theorem builder_badCommands {o : ContainerOptions} {run detach : Bool} {args : List String}
    (hc : o.commands = some (.notArr true))
    (h : processCreateContainerOptions { o with commands := none } run detach = .ok args) :
    processCreateContainerOptions o run detach = .error (.typeError commandsMsg) := by
  obtain ⟨himg, ⟨hA, hh⟩, ⟨vA, hv⟩, ⟨eA, he⟩, ⟨pA, hp⟩⟩ := builder_ok_sections h
  dsimp only at himg hh hv he hp
  rw [builder_eq, hc, if_neg himg, hh]
  simp only [Except.bind, hv, he, hp]
  rfl

/-- Claim C1: for every ContainerConfig with image present, the container
argument builder produces exactly the token sequence the spec describes —
base tokens for the run and detach flags, then, each only if provided, the
name pair, network pair, health pairs (command, interval, retries,
start-period, timeout), remove flag, one volume pair per entry, one
environment pair per variable, one port pair per entry, the image token, and
the command tokens appended last.  Stated as: whenever the builder returns a
token sequence at all, it is that spec-worded sequence. -/
theorem claimC1 (o : ContainerOptions) (run detach : Bool) (args : List String)
    (h : processCreateContainerOptions o run detach = .ok args) :
    args = containerSpecTokens o run detach :=
  builder_ok_eq h

/-- Witness for claim C1 at a configuration exercising every option. -/
theorem claimC1_witness :
    ["container", "run", "--detach", "--name", "cywp", "--net", "net",
      "--health-cmd", "curl localhost", "--health-interval", "2s",
      "--health-retries", "3", "--health-start-period", "1s",
      "--health-timeout", "30s", "--rm", "-v", "./a:/b", "-e", "K=V",
      "-p", "8000:80", "wordpress:latest", "cmd1", "cmd2"] =
    containerSpecTokens
      { image := some "wordpress:latest", name := some "cywp",
        network := some "net",
        health := some ⟨some "curl localhost", some "2s", some (.int 3), some "1s", some "30s"⟩,
        rm := true,
        volumes := some (.arr [⟨some (.str "./a"), some (.str "/b")⟩]),
        environmentVariables := some (.arr [⟨some (.str "K"), some (.str "V")⟩]),
        exposePorts := some (.arr [⟨some (.str "8000"), some (.str "80")⟩]),
        commands := some (.arr ["cmd1", "cmd2"]) } true true :=
  claimC1 _ true true _ rfl

/-- Counterexample to claim C2 as stated: with image set and run false but a
command token supplied, the returned sequence ends with the command token
rather than the image token, and the caller-injected token is a detach token,
so the sequence is not detach-free either. -/
theorem claimC2_counterexample :
    processCreateContainerOptions
        { image := some "wordpress", commands := some (.arr ["--detach"]) } false true =
      .ok ["container", "create", "wordpress", "--detach"] ∧
    ["container", "create", "wordpress", "--detach"].getLast? ≠ some "wordpress" ∧
    "--detach" ∈ ["container", "create", "wordpress", "--detach"] :=
  ⟨rfl, by decide, by decide⟩

/-- Claim C2, amended: for every ContainerConfig with image set and run
false, the returned token sequence starts with container create; it contains
no detach token provided no option-derived token equals the detach literal
(a caller can inject it, for example as a command token); and it ends with
the image token provided no command tokens are supplied (command tokens are
appended after the image). -/
theorem claimC2 (o : ContainerOptions) (detach : Bool) (args : List String)
    (h : processCreateContainerOptions o false detach = .ok args) :
    args.take 2 = ["container", "create"] ∧
    ("--detach" ∉ optionTokens o → "--detach" ∉ args) ∧
    (specCmdTokens o.commands = [] → args.getLast? = some (o.image.getD "")) := by
  have he := builder_ok_eq h
  subst he
  refine ⟨rfl, ?_, ?_⟩
  · intro hno hmem
    simp only [containerSpecTokens, specBaseTokens, List.mem_append] at hmem
    rcases hmem with hmem | hmem
    · simp at hmem
    · exact hno hmem
  · intro hcmd
    simp only [containerSpecTokens, optionTokens, hcmd, List.append_nil,
      ← List.append_assoc]
    exact List.getLast?_concat _

/-- Witness for the amended claim C2. -/
theorem claimC2_witness :
    ["container", "create", "wordpress"].take 2 = ["container", "create"] ∧
    "--detach" ∉ ["container", "create", "wordpress"] ∧
    ["container", "create", "wordpress"].getLast? = some "wordpress" := by
  have h := claimC2 { image := some "wordpress" } true ["container", "create", "wordpress"] rfl
  exact ⟨h.1, h.2.1 (by decide), h.2.2 rfl⟩

/-- Counterexample to claim C3 as stated: an empty commands list is truthy in
JavaScript, so RunInContainer accepts it and proceeds without any
configuration error. -/
theorem claimC3_counterexample :
    RunInContainer { image := some "wordpress", commands := some (.arr []), rm := true }
      ⟨0, "", ""⟩ = .ok ⟨"", ""⟩ :=
  rfl

/-- Claim C3, amended: RunInContainer requires a provided (truthy) commands
field and a true rm flag, raising a configuration TypeError before any
process is spawned otherwise; an empty commands list counts as provided,
because arrays are always truthy, and is accepted. -/
theorem claimC3 (o : ContainerOptions) (p : ProcessResult) :
    (jarrTruthy o.commands = false →
      RunInContainer o p = .error (.typeError runInCommandsMsg)) ∧
    (jarrTruthy o.commands = true → o.rm = false →
      RunInContainer o p = .error (.typeError runInRmMsg)) := by
  constructor
  · intro hc
    unfold RunInContainer
    rw [if_pos hc]
  · intro hc hr
    unfold RunInContainer
    rw [if_neg (by simp [hc]), if_pos hr]

/-- Witness for the amended claim C3. -/
theorem claimC3_witness :
    RunInContainer { image := some "w" } ⟨0, "", ""⟩ =
      .error (.typeError runInCommandsMsg) ∧
    RunInContainer { image := some "w", commands := some (.arr ["ls"]) } ⟨0, "", ""⟩ =
      .error (.typeError runInRmMsg) :=
  ⟨(claimC3 _ _).1 rfl, (claimC3 _ _).2 rfl rfl⟩

/-- Counterexample to claim C4 as stated: the code removes only the first
newline of the accumulated stdout, it does not strip surrounding whitespace,
so a stdout with a leading space yields an id different from the trimmed
stdout. -/
theorem claimC4_counterexample :
    (CreateContainer { image := some "w" } false true ⟨0, " abc\n", ""⟩).toOption.map
        (fun r => r.2.id) = some (some " abc") ∧
    some (" abc" : String) ≠ some (specTrim " abc\n") :=
  ⟨rfl, by decide⟩

/-- Claim C4, amended: for every successful creating operation the id (for
CreateVolume, the name) of the returned entity equals the accumulated stdout
with its first newline occurrence removed — for the assumed
single-identifier-line output, the identifier itself, though surrounding
whitespace is not stripped — and is computed from the process output alone,
never from the input configuration. -/
theorem claimC4 (o : ContainerOptions) (run detach : Bool) (inp : NetworkInput)
    (name : String) (p : ProcessResult) :
    (∀ ofinal c, CreateContainer o run detach p = .ok (ofinal, c) →
      c.id = some (removeFirstNewline p.stdout)) ∧
    (∀ v, CreateVolume name p = .ok v →
      v.name = some (removeFirstNewline p.stdout)) ∧
    (∀ nfinal n, CreateNetwork inp p = .ok (nfinal, n) →
      n.id = some (removeFirstNewline p.stdout)) := by
  refine ⟨?_, ?_, ?_⟩
  · intro ofinal c h
    obtain ⟨h1, h2⟩ := CreateContainer_ok h
    rw [h2, h1]
  · intro v h
    rw [CreateVolume_ok h]
  · intro nfinal n h
    obtain ⟨h1, h2⟩ := CreateNetwork_ok h
    rw [h2, h1]

/-- Witness for the amended claim C4. -/
theorem claimC4_witness :
    (Container.mk (some "abc") (some "created")
        { image := some "w", id := some "abc", status := some "created" }).id =
      some (removeFirstNewline "abc\n") ∧
    (Volume.mk (some "abc") (some "alive")).name = some (removeFirstNewline "abc\n") ∧
    (Network.mk (some "net1") (some "abc") (some "alive")).id =
      some (removeFirstNewline "abc\n") :=
  ⟨(claimC4 { image := some "w" } false true (.str "net1") "vol" ⟨0, "abc\n", ""⟩).1 _ _ rfl,
   (claimC4 { image := some "w" } false true (.str "net1") "vol" ⟨0, "abc\n", ""⟩).2.1 _ rfl,
   (claimC4 { image := some "w" } false true (.str "net1") "vol" ⟨0, "abc\n", ""⟩).2.2 _ _ rfl⟩

/-- Claim C5: for every successful CreateContainer call the status of the
returned Container is removed when remove-on-exit was requested, else
started when run is set, else created; in particular rm forces the removed
status regardless of the run flag. -/
theorem claimC5 (o : ContainerOptions) (run detach : Bool) (p : ProcessResult) :
    ∀ ofinal c, CreateContainer o run detach p = .ok (ofinal, c) →
      c.status = some (if o.rm then "removed" else if run then "started" else "created") := by
  intro ofinal c h
  obtain ⟨h1, h2⟩ := CreateContainer_ok h
  rw [h2, h1]

/-- Witness for claim C5: remove-on-exit forces the removed status even when
run is false. -/
theorem claimC5_witness :
    (Container.mk (some "x") (some "removed")
        { image := some "w", rm := true, id := some "x", status := some "removed" }).status =
      some "removed" :=
  claimC5 { image := some "w", rm := true } false true ⟨0, "x\n", ""⟩ _ _ rfl

/-- Claim C6: CreateNetwork normalizes a bare string s to an options object
with name s, builds the argument sequence network create name (raising the
configuration error when the name is absent or empty, hence falsy), and on
success resolves to a Network whose id is the stdout with its trailing
newline stripped, whose name is the supplied name and whose status is alive;
in particular the string net1 with stdout abc123 followed by a newline gives
the Network with id abc123, name net1, status alive. -/
theorem claimC6 (s line err : String) (o : NetworkOptions) :
    normalizeNetworkInput (.str s) = { name := some s, id := none, status := none } ∧
    (optTruthy o.name = false →
      ProcessCreateNetworkOption o = .error (.error networkNameMsg)) ∧
    (optTruthy o.name = true →
      ProcessCreateNetworkOption o = .ok ["network", "create", o.name.getD ""]) ∧
    (s ≠ "" → '\n' ∉ line.data →
      CreateNetwork (.str s) ⟨0, line ++ "\n", err⟩ =
        .ok ({ name := some s, id := some line, status := some "alive" },
          Network.mk (some s) (some line) (some "alive"))) ∧
    CreateNetwork (.str "net1") ⟨0, "abc123\n", ""⟩ =
      .ok ({ name := some "net1", id := some "abc123", status := some "alive" },
        Network.mk (some "net1") (some "abc123") (some "alive")) := by
  refine ⟨rfl, ?_, ?_, ?_, rfl⟩
  · intro hn
    unfold ProcessCreateNetworkOption
    rw [if_pos hn]
  · intro hn
    unfold ProcessCreateNetworkOption
    rw [if_neg (by simp [hn])]
  · intro hs hl
    unfold CreateNetwork
    have hname : ProcessCreateNetworkOption (normalizeNetworkInput (.str s)) =
        .ok ["network", "create", s] := by
      unfold ProcessCreateNetworkOption normalizeNetworkInput
      rw [if_neg (by simp [optTruthy, hs])]
      rfl
    rw [hname]
    simp only [Except.bind]
    unfold ReturnPromise
    rw [if_pos rfl]
    simp [normalizeNetworkInput, removeFirstNewline_eq hl]

/-- Witness for claim C6. -/
theorem claimC6_witness :
    ProcessCreateNetworkOption { name := none } = .error (.error networkNameMsg) ∧
    ProcessCreateNetworkOption { name := some "net1" } = .ok ["network", "create", "net1"] ∧
    CreateNetwork (.str "net1") ⟨0, "abc123\n", ""⟩ =
      .ok ({ name := some "net1", id := some "abc123", status := some "alive" },
        Network.mk (some "net1") (some "abc123") (some "alive")) :=
  ⟨(claimC6 "net1" "abc123" "" { name := none }).2.1 rfl,
   (claimC6 "net1" "abc123" "" { name := some "net1" }).2.2.1 rfl,
   (claimC6 "net1" "abc123" "" { name := none }).2.2.2.1 (by decide) (by decide)⟩

/-- Counterexample to claim C7 as stated: a health block without a command
raises a configuration error whose message carries no usage example. -/
theorem claimC7_counterexample :
    processCreateContainerOptions
        { image := some "w", health := some ⟨none, none, none, none, none⟩ } false true =
      .error (.typeError healthCommandMsg) ∧
    hasUsageExample healthCommandMsg = false :=
  ⟨rfl, rfl⟩

/-- Claim C7, amended: the configuration errors for a missing image, a
non-array or element-invalid volumes, environmentVariables or exposePorts
option, and a missing network name carry a corrective usage example in their
message, while the errors for a missing health command, a non-integer health
retries and a non-array commands value carry none. -/
theorem claimC7 :
    (processCreateContainerOptions { image := none } false true =
        .error (.error imageMsg) ∧ hasUsageExample imageMsg = true) ∧
    (processCreateContainerOptions { image := some "w", volumes := some (.notArr true) }
        false true = .error (.error volumesArrayMsg) ∧
      hasUsageExample volumesArrayMsg = true) ∧
    (processCreateContainerOptions
        { image := some "w", volumes := some (.arr [⟨none, none⟩]) } false true =
        .error (.error volumesItemMsg) ∧ hasUsageExample volumesItemMsg = true) ∧
    (processCreateContainerOptions
        { image := some "w", environmentVariables := some (.notArr true) } false true =
        .error (.error envArrayMsg) ∧ hasUsageExample envArrayMsg = true) ∧
    (processCreateContainerOptions
        { image := some "w", environmentVariables := some (.arr [⟨none, none⟩]) }
        false true = .error (.error envItemMsg) ∧ hasUsageExample envItemMsg = true) ∧
    (processCreateContainerOptions { image := some "w", exposePorts := some (.notArr true) }
        false true = .error (.error portsArrayMsg) ∧
      hasUsageExample portsArrayMsg = true) ∧
    (processCreateContainerOptions
        { image := some "w", exposePorts := some (.arr [⟨none, none⟩]) } false true =
        .error (.error portsItemMsg) ∧ hasUsageExample portsItemMsg = true) ∧
    (ProcessCreateNetworkOption { name := none } = .error (.error networkNameMsg) ∧
      hasUsageExample networkNameMsg = true) ∧
    (processCreateContainerOptions
        { image := some "w", health := some ⟨none, none, none, none, none⟩ } false true =
        .error (.typeError healthCommandMsg) ∧ hasUsageExample healthCommandMsg = false) ∧
    (processCreateContainerOptions
        { image := some "w", health := some ⟨some "c", none, some (.other true), none, none⟩ }
        false true = .error (.typeError retriesMsg) ∧ hasUsageExample retriesMsg = false) ∧
    (processCreateContainerOptions { image := some "w", commands := some (.notArr true) }
        false true = .error (.typeError commandsMsg) ∧
      hasUsageExample commandsMsg = false) :=
  ⟨⟨rfl, rfl⟩, ⟨rfl, rfl⟩, ⟨rfl, rfl⟩, ⟨rfl, rfl⟩, ⟨rfl, rfl⟩, ⟨rfl, rfl⟩,
   ⟨rfl, rfl⟩, ⟨rfl, rfl⟩, ⟨rfl, rfl⟩, ⟨rfl, rfl⟩, ⟨rfl, rfl⟩⟩

/-- Counterexample to claim C8 as stated: a successful CreateContainer call
leaves the caller-supplied options object changed — id and status have been
written into it. -/
theorem claimC8_counterexample :
    (CreateContainer { image := some "w" } false true ⟨0, "id1\n", ""⟩).toOption.map
        Prod.fst = some { image := some "w", id := some "id1", status := some "created" } ∧
    ({ image := some "w", id := some "id1", status := some "created" } : ContainerOptions) ≠
      { image := some "w" } :=
  ⟨rfl, by decide⟩

/-- Claim C8, amended: CreateContainer and CreateNetwork write id and status
back into the caller-supplied options object — on success the final options
equal the input with id set from the process stdout and status assigned — so
a caller options value whose id was unset is not left unchanged; the
returned entity is built from the mutated options (the non-mutating design
the spec describes is a stated target, not the current behavior). -/
theorem claimC8 (o : ContainerOptions) (run detach : Bool) (inp : NetworkInput)
    (p : ProcessResult) :
    (∀ ofinal c, CreateContainer o run detach p = .ok (ofinal, c) →
      ofinal = { o with
        id := some (removeFirstNewline p.stdout),
        status := some (if o.rm then "removed" else if run then "started" else "created") } ∧
      (o.id = none → ofinal ≠ o)) ∧
    (∀ nfinal n, CreateNetwork inp p = .ok (nfinal, n) →
      nfinal = { normalizeNetworkInput inp with
        id := some (removeFirstNewline p.stdout),
        status := some "alive" } ∧
      ((normalizeNetworkInput inp).id = none → nfinal ≠ normalizeNetworkInput inp)) := by
  constructor
  · intro ofinal c h
    obtain ⟨h1, h2⟩ := CreateContainer_ok h
    refine ⟨h1, ?_⟩
    intro hid heq
    rw [heq] at h1
    have hcontr := congrArg ContainerOptions.id h1
    rw [hid] at hcontr
    exact Option.noConfusion hcontr
  · intro nfinal n h
    obtain ⟨h1, h2⟩ := CreateNetwork_ok h
    refine ⟨h1, ?_⟩
    intro hid heq
    rw [heq] at h1
    have hcontr := congrArg NetworkOptions.id h1
    rw [hid] at hcontr
    exact Option.noConfusion hcontr

/-- Witness for the amended claim C8. -/
theorem claimC8_witness :
    ({ image := some "w", id := some "id1", status := some "created" } : ContainerOptions) ≠
      { image := some "w" } ∧
    ({ name := some "net1", id := some "id1", status := some "alive" } : NetworkOptions) ≠
      { name := some "net1" } := by
  have hc := (claimC8 { image := some "w" } false true (.str "net1") ⟨0, "id1\n", ""⟩).1 _ _ rfl
  have hn := (claimC8 { image := some "w" } false true (.str "net1") ⟨0, "id1\n", ""⟩).2 _ _ rfl
  exact ⟨hc.2 rfl, hn.2 rfl⟩

/-- Claim C9: a configuration whose commands field is provided (truthy) but
is not a list makes the argument builder raise the commands configuration
TypeError; the check applies to CreateContainer and RunInContainer argument
building alike and runs after the image token has been appended, making it
the last validation step — formalized: whenever every other block validates
(the builder succeeds once the bad commands value is removed), the builder
fails with exactly the commands TypeError, the sequence built without the bad
commands already ends with the image token, and RunInContainer, whose own
truthiness checks the value passes, surfaces the same TypeError. -/
theorem claimC9 (o : ContainerOptions) (run detach : Bool) (p : ProcessResult)
    (args args' : List String)
    (hc : o.commands = some (.notArr true))
    (h : processCreateContainerOptions { o with commands := none } run detach = .ok args)
    (h' : processCreateContainerOptions { o with commands := none } true false = .ok args') :
    processCreateContainerOptions o run detach = .error (.typeError commandsMsg) ∧
    args.getLast? = some (o.image.getD "") ∧
    (o.rm = true → RunInContainer o p = .error (.typeError commandsMsg)) := by
  have hbad := builder_badCommands hc h
  have hbad' := builder_badCommands hc h'
  refine ⟨hbad, ?_, ?_⟩
  · have he := builder_ok_eq h
    rw [he]
    simp only [containerSpecTokens, optionTokens]
    simp only [specCmdTokens, List.append_nil, ← List.append_assoc]
    exact List.getLast?_concat _
  · intro hrm
    unfold RunInContainer
    rw [hc]
    rw [if_neg (by decide), if_neg (by simp [hrm]), hbad']
    rfl

/-- Witness for claim C9. -/
theorem claimC9_witness :
    processCreateContainerOptions
        { image := some "w", rm := true, commands := some (.notArr true) } false true =
      .error (.typeError commandsMsg) ∧
    ["container", "create", "--rm", "w"].getLast? = some "w" ∧
    RunInContainer { image := some "w", rm := true, commands := some (.notArr true) }
      ⟨0, "", ""⟩ = .error (.typeError commandsMsg) := by
  have h := claimC9 { image := some "w", rm := true, commands := some (.notArr true) }
    false true ⟨0, "", ""⟩ ["container", "create", "--rm", "w"]
    ["container", "run", "--rm", "w"] rfl rfl rfl
  exact ⟨h.1, h.2.1, h.2.2 rfl⟩

/-- Claim C10: presence checks in the argument builder are by truthiness — a
health retries of 0 is a whole number yet raises no error and emits no
retries token, while a volumes, exposePorts or environmentVariables entry
whose required field equals 0 or the empty string is rejected with the
missing-field configuration error even though the field is present. -/
theorem claimC10 :
    processCreateContainerOptions
        { image := some "w", health := some ⟨some "cmd", none, some (.int 0), none, none⟩ }
        false true = .ok ["container", "create", "--health-cmd", "cmd", "w"] ∧
    "--health-retries" ∉ ["container", "create", "--health-cmd", "cmd", "w"] ∧
    RetriesVal.isInteger (.int 0) = true ∧
    processCreateContainerOptions
        { image := some "w", volumes := some (.arr [⟨some (.int 0), some (.str "/b")⟩]) }
        false true = .error (.error volumesItemMsg) ∧
    processCreateContainerOptions
        { image := some "w", exposePorts := some (.arr [⟨some (.str ""), some (.str "80")⟩]) }
        false true = .error (.error portsItemMsg) ∧
    processCreateContainerOptions
        { image := some "w",
          environmentVariables := some (.arr [⟨some (.str "N"), some (.str "")⟩]) }
        false true = .error (.error envItemMsg) :=
  ⟨rfl, by decide, rfl, rfl, rfl, rfl⟩

end Cywp
